import Mathlib

/-!
Verification development for the calorie-tracker bot repository.

The Python sources (database.py, scheduler.py, food_recognition.py, main.py)
are shallowly embedded below.  SQLite rows become Lean structures, the store
becomes a `Database` value passed explicitly, REAL columns become `ℚ`, and
exceptions become `Except` values.

Timestamps: the code stores `datetime.utcnow().isoformat()` strings such as
"2024-01-15T12:34:56.789012" and compares them with SQL `BETWEEN`, i.e.
lexicographic string comparison.  On well-formed ISO-8601 UTC strings,
lexicographic comparison coincides with lexicographic order on the pair
(calendar day, seconds-of-day), where fractional seconds make the second
component rational.  `Timestamp` below is exactly that pair, so `tsLe`
is a faithful model of the string comparison the code performs.
-/

namespace CalorieBot

structure Timestamp where
  day : ℕ
  sod : ℚ
deriving DecidableEq

/-- Lexicographic order on timestamps, the model of lexicographic string
comparison of ISO-8601 timestamps. -/
def tsLe (a b : Timestamp) : Prop :=
  a.day < b.day ∨ (a.day = b.day ∧ a.sod ≤ b.sod)

instance tsLe.instDecidableRel : DecidableRel tsLe := fun a b =>
  inferInstanceAs (Decidable (a.day < b.day ∨ (a.day = b.day ∧ a.sod ≤ b.sod)))

theorem tsLe_total (a b : Timestamp) : tsLe a b ∨ tsLe b a := by
  unfold tsLe
  rcases Nat.lt_trichotomy a.day b.day with h | h | h
  · exact Or.inl (Or.inl h)
  · rcases le_total a.sod b.sod with hs | hs
    · exact Or.inl (Or.inr ⟨h, hs⟩)
    · exact Or.inr (Or.inr ⟨h.symm, hs⟩)
  · exact Or.inr (Or.inl h)

theorem tsLe_trans {a b c : Timestamp} (h1 : tsLe a b) (h2 : tsLe b c) : tsLe a c := by
  unfold tsLe at *
  rcases h1 with h1 | ⟨h1, h1q⟩ <;> rcases h2 with h2 | ⟨h2, h2q⟩
  · exact Or.inl (h1.trans h2)
  · exact Or.inl (h2 ▸ h1)
  · exact Or.inl (h1 ▸ h2)
  · exact Or.inr ⟨h1.trans h2, h1q.trans h2q⟩

/-- Row of the `users` table (database.py, `init_db`).  `created_at` is the
insertion timestamp; `reminder_enabled` is an INTEGER (SQLite has no
booleans) defaulting to 1; `daily_target` defaults to 2000. -/
structure User where
  user_id : Int
  username : String
  created_at : Timestamp
  reminder_enabled : Int
  daily_target : Int
deriving DecidableEq

/-- Row of the `meals` table (database.py, `init_db`).  The AUTOINCREMENT
`id` column is not modelled; rows are kept in insertion order. -/
structure Meal where
  user_id : Int
  food_name : String
  calories : ℚ
  meal_type : String
  photo_url : Option String
  created_at : Timestamp
deriving DecidableEq

/-- Row of the `daily_logs` table (database.py, `init_db`).  `date` is the
calendar-day index of `date.today().isoformat()`; `target_met` is stored as
the INTEGER `1 if target_met else 0`. -/
structure DailyLog where
  user_id : Int
  date : ℕ
  total_calories : ℚ
  target_met : Int
  created_at : Timestamp
deriving DecidableEq

/-- The persistent state of the three tables managed by `Database`
(database.py).  Each list holds rows in insertion order. -/
structure Database where
  users : List User
  meals : List Meal
  daily_logs : List DailyLog
deriving DecidableEq

/-- `Database.create_user` (database.py lines 57-65):
INSERT OR IGNORE is a no-op when a row with the same `user_id`
primary key already exists; otherwise the row is inserted with the
column defaults `reminder_enabled = 1` and `daily_target = 2000`. -/
def Database.create_user (db : Database) (uid : Int) (uname : String)
    (now : Timestamp) : Database :=
  if db.users.any (fun u => u.user_id == uid) then db
  else { db with users := db.users ++
    [{ user_id := uid, username := uname, created_at := now,
       reminder_enabled := 1, daily_target := 2000 }] }

/-- `Database.get_user` (database.py lines 67-74): the row with the given
primary key, or `none`. -/
def Database.get_user (db : Database) (uid : Int) : Option User :=
  db.users.find? (fun u => u.user_id == uid)

/-- `Database.add_meal` (database.py lines 76-85): inserts one meal row with
`created_at = datetime.utcnow().isoformat()`, passed here as `now`. -/
def Database.add_meal (db : Database) (uid : Int) (food_name : String)
    (calories : ℚ) (meal_type : String) (photo_url : Option String)
    (now : Timestamp) : Database :=
  { db with meals := db.meals ++
    [{ user_id := uid, food_name := food_name, calories := calories,
       meal_type := meal_type, photo_url := photo_url, created_at := now }] }

/-- Model of the string `f"{day.isoformat()}T00:00:00"` (database.py line 92). -/
def startDate (day : ℕ) : Timestamp := ⟨day, 0⟩

/-- Model of the string `f"{day.isoformat()}T23:59:59"` (database.py line 93). -/
def endDate (day : ℕ) : Timestamp := ⟨day, 86399⟩

/-- The WHERE clause of `get_daily_meals` (database.py lines 99-102):
`user_id = ? AND created_at BETWEEN ? AND ?`, the BETWEEN bounds being
inclusive. -/
def mealSelected (uid : Int) (day : ℕ) (m : Meal) : Prop :=
  m.user_id = uid ∧ tsLe (startDate day) m.created_at ∧ tsLe m.created_at (endDate day)

instance mealSelected.instDecidable (uid : Int) (day : ℕ) (m : Meal) :
    Decidable (mealSelected uid day m) :=
  inferInstanceAs (Decidable (_ ∧ _ ∧ _))

/-- Comparison used to model `ORDER BY created_at` (database.py line 101). -/
def mealLe (a b : Meal) : Prop := tsLe a.created_at b.created_at

instance mealLe.instDecidableRel : DecidableRel mealLe := fun a b =>
  inferInstanceAs (Decidable (tsLe a.created_at b.created_at))

instance mealLe.instIsTotal : IsTotal Meal mealLe := ⟨fun _ _ => tsLe_total _ _⟩

instance mealLe.instIsTrans : IsTrans Meal mealLe := ⟨fun _ _ _ => tsLe_trans⟩

/-- `Database.get_daily_meals` (database.py lines 87-104): all meal rows of
the user whose `created_at` lies between `day`T00:00:00 and `day`T23:59:59
(inclusive string BETWEEN), ordered by `created_at` ascending.  SQLite does
not specify the order of rows with equal keys; insertion sort realises one
valid `ORDER BY created_at` output. -/
def Database.get_daily_meals (db : Database) (uid : Int) (day : ℕ) : List Meal :=
  List.insertionSort mealLe (db.meals.filter (fun m => decide (mealSelected uid day m)))

/-- `Database.get_daily_total` (database.py lines 106-109):
`sum(meal["calories"] for meal in meals)` over `get_daily_meals`. -/
def Database.get_daily_total (db : Database) (uid : Int) (day : ℕ) : ℚ :=
  ((db.get_daily_meals uid day).map Meal.calories).sum

/-- `Database.log_daily_summary` (database.py lines 126-137): appends one
`daily_logs` row for `date.today()` (passed as `today`), storing
`1 if target_met else 0`. -/
def Database.log_daily_summary (db : Database) (uid : Int) (total : ℚ)
    (target_met : Bool) (today : ℕ) (now : Timestamp) : Database :=
  { db with daily_logs := db.daily_logs ++
    [{ user_id := uid, date := today, total_calories := total,
       target_met := if target_met then 1 else 0, created_at := now }] }

/-- Python-level exceptions surfaced by the embedded operations. -/
inductive PyError
  | attributeError (obj attr : String)
  | operationalError (msg : String)
  | sendError (msg : String)
deriving DecidableEq

/-- The `str(e)` text used by the scheduler's `except` handlers.  Python
renders an AttributeError on `db.supabase` as
`'Database' object has no attribute 'supabase'`; quotes are omitted here. -/
def PyError.msg : PyError → String
  | .attributeError obj attr => obj ++ " object has no attribute " ++ attr
  | .operationalError m => m
  | .sendError m => m

/-- Value bound to a `?` placeholder in `update_settings`.  The program only
ever passes Python ints and bools (bound as the SQLite integers 1/0) and
strings; those are the modelled cases. -/
inductive SqlValue
  | int (n : Int)
  | text (s : String)
deriving DecidableEq

/-- TEXT-affinity rendering of a bound value. -/
def SqlValue.asText : SqlValue → String
  | .int n => toString n
  | .text s => s

/-- Columns of the `users` table (database.py, `init_db`). -/
def usersColumns : List String :=
  ["user_id", "username", "created_at", "reminder_enabled", "daily_target"]

/-- Effect of one `SET key = ?` clause of the UPDATE built by
`update_settings` (database.py lines 117-123) on one `users` row.  SQLite
applies the clause to whatever existing column is named, with no allow-list.
Conversions the program never exercises (text into the INTEGER columns,
any value into `created_at`, text into `user_id`) are outside the typed
row model and are mapped to an error value. -/
def User.setColumn (u : User) (key : String) (v : SqlValue) :
    Except PyError User :=
  if key = "user_id" then
    match v with
    | .int n => .ok { u with user_id := n }
    | .text _ => .error (.operationalError "datatype mismatch")
  else if key = "username" then .ok { u with username := v.asText }
  else if key = "created_at" then
    .error (.operationalError "unmodelled conversion into created_at")
  else if key = "reminder_enabled" then
    match v with
    | .int n => .ok { u with reminder_enabled := n }
    | .text _ => .error (.operationalError "unmodelled text value")
  else if key = "daily_target" then
    match v with
    | .int n => .ok { u with daily_target := n }
    | .text _ => .error (.operationalError "unmodelled text value")
  else .error (.operationalError ("no such column: " ++ key))

/-- `Database.update_settings` (database.py lines 111-124): the settings
dict is spliced key by key into `UPDATE users SET k1 = ?, ... WHERE
user_id = ?`.  Preparing the statement fails with `no such column` when any
key is not a `users` column; otherwise every named column — whatever it is
— is updated on the matching rows.  A single UPDATE statement is atomic, so
an error leaves the database unchanged. -/
def Database.update_settings (db : Database) (uid : Int)
    (settings : List (String × SqlValue)) : Except PyError Database :=
  match settings.find? (fun kv => !usersColumns.contains kv.1) with
  | some kv => .error (.operationalError ("no such column: " ++ kv.1))
  | none => do
    let users ← db.users.mapM (fun u =>
      if u.user_id == uid then
        settings.foldlM (fun acc kv => acc.setColumn kv.1 kv.2) u
      else pure u)
    pure { db with users := users }

/-!
Scheduler (scheduler.py).  `send_daily_summary` and `send_reminder` are
embedded with the bot abstracted as a send function and wall-clock inputs
(`today`, `now`) passed explicitly.  Messages actually handed to the bot
and the strings printed by the `except` handlers are collected in the
result.
-/

/-- Outcome of delivering one message, abstracting
`self.bot.send_message(chat_id=..., text=...)`. -/
abbrev SendFn := Int → String → Except PyError Unit

/-- Result of one scheduled-job run: the database afterwards, the messages
delivered as (chat_id, text) pairs, and the error lines printed by the
handler at the bottom of the job. -/
structure JobResult where
  db : Database
  sent : List (Int × String)
  errors : List String
deriving DecidableEq

/-- The expression `db.supabase.table("users").select("*").execute()`
(scheduler.py line 40) and its `.eq("reminder_enabled", True)` variant
(lines 78-81).  The sqlite-backed `Database` class (database.py) defines no
attribute `supabase`, so the attribute access raises AttributeError before
any query runs. -/
def Database.supabaseSelectUsers (_db : Database) : Except PyError (List User) :=
  .error (.attributeError "Database" "supabase")

/-- The attribute access `meals.data` (scheduler.py line 89):
`get_daily_meals` returns a plain Python list, which has no attribute
`data`, so this raises AttributeError. -/
def listData (_meals : List Meal) : Except PyError (List Meal) :=
  .error (.attributeError "list" "data")

/-- Text formatting of `f"{x:.1f}"`; the exact digits are irrelevant to
every claim, so the rendering is abstracted to `toString`. -/
def format1f (q : ℚ) : String := toString q

/-- The summary message built at scheduler.py lines 51-56. -/
def summaryMessage (total : ℚ) (target : Int) (target_met : Bool) : String :=
  "Daily Calorie Summary\n\n" ++
  "Total calories consumed: " ++ format1f total ++ "\n" ++
  "Daily target: " ++ toString target ++ "\n" ++
  "Status: " ++ (if target_met then "Target met!" else "Target exceeded")

/-- Loop body of `send_daily_summary` (scheduler.py lines 42-69) for one
user: skip falsy user ids, compute the daily total, derive `target_met`,
append the daily log row, then send; a raised send error carries the
already-performed side effects out of the loop. -/
def summaryBody (send : SendFn) (today : ℕ) (now : Timestamp)
    (st : Database × List (Int × String)) (user : User) :
    Except (PyError × Database × List (Int × String))
      (Database × List (Int × String)) :=
  let (db, sent) := st
  if user.user_id == 0 then .ok (db, sent)
  else
    let total := db.get_daily_total user.user_id today
    let target_met : Bool := decide (total ≤ (user.daily_target : ℚ))
    let message := summaryMessage total user.daily_target target_met
    let db := db.log_daily_summary user.user_id total target_met today now
    match send user.user_id message with
    | .ok _ => .ok (db, sent ++ [(user.user_id, message)])
    | .error e => .error (e, db, sent)

/-- The `for user in users.data` loop of `send_daily_summary`.  The single
`try` of the job wraps the whole loop, so the first raise abandons the
remaining users. -/
def summaryLoop (send : SendFn) (today : ℕ) (now : Timestamp)
    (users : List User) (db : Database) :
    Except (PyError × Database × List (Int × String))
      (Database × List (Int × String)) :=
  users.foldlM (summaryBody send today now) (db, [])

/-- `SchedulerService.send_daily_summary` (scheduler.py lines 36-72): list
all users via the nonexistent `db.supabase`, loop over them, and let the
enclosing `except Exception` turn any raise into a printed line. -/
def send_daily_summary (send : SendFn) (today : ℕ) (now : Timestamp)
    (db : Database) : JobResult :=
  match db.supabaseSelectUsers with
  | .error e => ⟨db, [], ["Error sending daily summary: " ++ e.msg]⟩
  | .ok users =>
    match summaryLoop send today now users db with
    | .ok (db, sent) => ⟨db, sent, []⟩
    | .error (e, db, sent) =>
      ⟨db, sent, ["Error sending daily summary: " ++ e.msg]⟩

/-- The reminder message built at scheduler.py lines 90-95. -/
def reminderMessage : String :=
  "Reminder!\n\nYou havent logged any meals today. " ++
  "Dont forget to track your food intake!\n\n" ++
  "Use /add to log manually or send a photo of your food."

/-- Loop body of `send_reminder` (scheduler.py lines 83-101) for one user:
skip falsy user ids, fetch the meals list, then access `meals.data`, which
raises AttributeError on a plain list; the dead remainder of the body
(send the reminder when the list is empty) is kept for fidelity. -/
def reminderBody (send : SendFn) (today : ℕ)
    (st : Database × List (Int × String)) (user : User) :
    Except (PyError × Database × List (Int × String))
      (Database × List (Int × String)) :=
  let (db, sent) := st
  if user.user_id == 0 then .ok (db, sent)
  else
    match listData (db.get_daily_meals user.user_id today) with
    | .error e => .error (e, db, sent)
    | .ok mealsData =>
      if mealsData.isEmpty then
        match send user.user_id reminderMessage with
        | .ok _ => .ok (db, sent ++ [(user.user_id, reminderMessage)])
        | .error e => .error (e, db, sent)
      else .ok (db, sent)

/-- `SchedulerService.send_reminder` (scheduler.py lines 74-104). -/
def send_reminder (send : SendFn) (today : ℕ) (db : Database) : JobResult :=
  match db.supabaseSelectUsers with
  | .error e => ⟨db, [], ["Error sending reminder: " ++ e.msg]⟩
  | .ok users =>
    match users.foldlM (reminderBody send today) (db, []) with
    | .ok (db, sent) => ⟨db, sent, []⟩
    | .error (e, db, sent) =>
      ⟨db, sent, ["Error sending reminder: " ++ e.msg]⟩

/-!
Food lookup (food_recognition.py).  `get_food_calories` carries two caches:
the hand-rolled `self.cache` dict keyed by `query.lower()` with a 3600 s
window, and the `@lru_cache(maxsize=100)` decorator, which memoises the
method by its exact `query` argument with no expiry.  The outbound HTTP
exchange is abstracted as the `ApiResponse` the service would give to a
request issued now; the boolean in the result records whether an outbound
request was actually issued.
-/

/-- Model of Python `query.lower()` (food_recognition.py line 69):
character-wise ASCII lowercasing, defined structurally over the character
list so that it evaluates inside the kernel. -/
def strLower (s : String) : String := String.mk (s.data.map Char.toLower)

/-- One element of the `items` list of a 200 response (food_recognition.py
lines 86-89). -/
structure ApiItem where
  name : String
  calories : ℚ
deriving DecidableEq

/-- Behaviour of the outbound `requests.get` call: a 200 response carrying
`items`, a non-200 status, or `requests.Timeout`. -/
inductive ApiResponse
  | success (items : List ApiItem)
  | httpError (status : ℕ)
  | timeout
deriving DecidableEq

/-- Return value of `get_food_calories`: the `(name, calories)` tuple on
success, otherwise the `(None, message)` error tuple, modelled as the
message alone. -/
abbrev LookupResult := Except String (String × ℚ)

instance lookupResult.instDecidableEq : DecidableEq LookupResult := fun a b =>
  match a, b with
  | .ok x, .ok y =>
    if h : x = y then .isTrue (by rw [h]) else .isFalse (by simp [h])
  | .error x, .error y =>
    if h : x = y then .isTrue (by rw [h]) else .isFalse (by simp [h])
  | .ok _, .error _ => .isFalse (by simp)
  | .error _, .ok _ => .isFalse (by simp)

/-- State of the `FoodRecognition` service: `cache` models the dict
`self.cache` as an association list, newest entry first, holding
`(timestamp, (name, calories))`; `lru` models the `@lru_cache` memo table,
most recently used first. -/
structure FoodRecognition where
  cache : List (String × ℚ × String × ℚ)
  lru : List (String × LookupResult)
deriving DecidableEq

/-- `FoodRecognition.__init__`: `self.cache = {}` and an empty memo table. -/
def FoodRecognition.init : FoodRecognition := ⟨[], []⟩

/-- Recording a call in the `@lru_cache` memo table: newest first, least
recently used entry evicted beyond `maxsize=100`. -/
def lruPut (lru : List (String × LookupResult)) (q : String)
    (r : LookupResult) : List (String × LookupResult) :=
  ((q, r) :: lru.filter (fun p => !(p.1 == q))).take 100

/-- A hit in the `@lru_cache` memo table marks the entry most recently
used. -/
def lruTouch (lru : List (String × LookupResult)) (q : String) :
    List (String × LookupResult) :=
  match lru.lookup q with
  | some r => (q, r) :: lru.filter (fun p => !(p.1 == q))
  | none => lru

/-- The freshness test of food_recognition.py lines 72-75: the entry stored
under `cache_key`, provided `current_time - timestamp < self.cache_timeout`
(3600 s). -/
def cacheFresh (cache : List (String × ℚ × String × ℚ)) (now : ℚ)
    (cache_key : String) : Option (String × ℚ) :=
  match cache.lookup cache_key with
  | some (ts, data) => if now - ts < 3600 then some data else none
  | none => none

/-- `FoodRecognition.get_food_calories` (food_recognition.py lines 65-100).
The `@lru_cache` decorator intercepts the call first: an exact-`query` hit
returns the memoised value without running the body.  Otherwise the body
checks `self.cache` under `query.lower()` within the 1-hour window, and
only then issues the outbound request; a 200 response with items is stored
in `self.cache`, every outcome is memoised by `@lru_cache`.  Returns
(result, new state, whether an outbound request was issued). -/
def get_food_calories (fr : FoodRecognition) (api : ApiResponse) (now : ℚ)
    (query : String) : LookupResult × FoodRecognition × Bool :=
  match fr.lru.lookup query with
  | some r => (r, { fr with lru := lruTouch fr.lru query }, false)
  | none =>
    let cache_key := strLower query
    match cacheFresh fr.cache now cache_key with
    | some data =>
      (.ok data, { fr with lru := lruPut fr.lru query (.ok data) }, false)
    | none =>
      match api with
      | .success [] =>
        (.error "Food not found in database",
         { fr with lru := lruPut fr.lru query (.error "Food not found in database") },
         true)
      | .success (item :: _) =>
        let result := (item.name, item.calories)
        (.ok result,
         { cache := (cache_key, now, result) :: fr.cache,
           lru := lruPut fr.lru query (.ok result) },
         true)
      | .httpError status =>
        (.error ("API Error: " ++ toString status),
         { fr with lru := lruPut fr.lru query (.error ("API Error: " ++ toString status)) },
         true)
      | .timeout =>
        (.error "API request timed out",
         { fr with lru := lruPut fr.lru query (.error "API request timed out") },
         true)

/-!
Manual logging flow (main.py).  `calories_received` is the CALORIES state
of the /add conversation: it parses the text with `float(...)`, stores the
meal on success, and re-prompts on ValueError.
-/

/-- Result of a successful `float(text)` call: a finite value (idealised
to its exact rational, the convention used for the REAL column throughout
this file), one of the two IEEE infinities, or nan. -/
inductive PyFloat
  | finite (q : ℚ)
  | inf
  | negInf
  | nan
deriving DecidableEq

/-- Characters stripped from both ends by `float(text)` (the whitespace
set of `str.strip`): ASCII whitespace, the ASCII separator controls, and
the Unicode space separators. -/
def isPyWhitespace (c : Char) : Bool :=
  c == ' ' || c == '\t' || c == '\n' || c == '\r' || c == '\x0b' ||
  c == '\x0c' || c == '\x1c' || c == '\x1d' || c == '\x1e' || c == '\x1f' ||
  c == '\x85' || c == '\xa0' || ('\u2000' ≤ c && c ≤ '\u200a') ||
  c == '\u2028' || c == '\u2029' || c == '\u202f' || c == '\u205f' ||
  c == '\u3000'

/-- Whitespace stripping on both ends, the model of `str.strip`. -/
def stripWs (cs : List Char) : List Char :=
  ((cs.dropWhile isPyWhitespace).reverse.dropWhile isPyWhitespace).reverse

/-- Character-wise lowercasing of a character list (for the
case-insensitive `inf`/`infinity`/`nan` spellings and the exponent
marker `E`). -/
def lowerAll (cs : List Char) : List Char := cs.map Char.toLower

/-- Split on a separator character, the model of `str.split`. -/
def splitOnChar (c : Char) : List Char → List (List Char)
  | [] => [[]]
  | x :: xs =>
    if x == c then [] :: splitOnChar c xs
    else
      match splitOnChar c xs with
      | r :: rs => (x :: r) :: rs
      | [] => [[x]]

/-- Accumulating scan of a `digitpart` after its leading digit has been
checked: digits with single underscores permitted only between digits.
Returns the value and the number of digits consumed. -/
def parseDigitPartAux : ℕ → ℕ → List Char → Option (ℕ × ℕ)
  | acc, cnt, [] => some (acc, cnt)
  | acc, cnt, c :: cs =>
    if c.isDigit then parseDigitPartAux (acc * 10 + (c.toNat - 48)) (cnt + 1) cs
    else if c == '_' then
      match cs with
      | [] => none
      | d :: cs2 =>
        if d.isDigit then
          parseDigitPartAux (acc * 10 + (d.toNat - 48)) (cnt + 1) cs2
        else none
    else none

/-- The `digitpart` of the Python float grammar:
`digit (["_"] digit)*`.  Returns the value and the digit count, `none` on
an empty string, a non-digit, or a misplaced underscore. -/
def parseDigitPart (cs : List Char) : Option (ℕ × ℕ) :=
  match cs with
  | c :: _ => if c.isDigit then parseDigitPartAux 0 0 cs else none
  | [] => none

/-- The unsigned mantissa of the float grammar:
`digitpart | digitpart "." [digitpart] | [digitpart] "." digitpart`. -/
def parseMantissa (cs : List Char) : Option ℚ :=
  match splitOnChar '.' cs with
  | [ip] => (parseDigitPart ip).map (fun p => (p.1 : ℚ))
  | [ip, fp] =>
    if ip.isEmpty && fp.isEmpty then none
    else
      match (if ip.isEmpty then some ((0 : ℕ), (0 : ℕ)) else parseDigitPart ip),
            (if fp.isEmpty then some ((0 : ℕ), (0 : ℕ)) else parseDigitPart fp) with
      | some iv, some fv => some ((iv.1 : ℚ) + (fv.1 : ℚ) / (10 : ℚ) ^ fv.2)
      | _, _ => none
  | _ => none

/-- The exponent of the float grammar: an optionally signed `digitpart`. -/
def parseSignedDigitPart (cs : List Char) : Option ℤ :=
  match cs with
  | '-' :: t => (parseDigitPart t).map (fun p => -(p.1 : ℤ))
  | '+' :: t => (parseDigitPart t).map (fun p => (p.1 : ℤ))
  | t => (parseDigitPart t).map (fun p => (p.1 : ℤ))

/-- Model of Python `float(text)`: surrounding whitespace is stripped; an
optional sign precedes either a case-insensitive `inf`/`infinity`/`nan` or
a decimal literal with an optional fractional part and an optional decimal
exponent, with single underscores permitted between digits; anything else
raises ValueError, modelled as `none`.  Finite values are idealised to
exact rationals, the convention for the REAL column throughout this file
(IEEE rounding, overflow of huge exponents to infinity, and non-ASCII
Unicode decimal digits are outside the model). -/
def pyFloat (s : String) : Option PyFloat :=
  let cs := stripWs s.data
  let (neg, body) : Bool × List Char :=
    match cs with
    | '-' :: t => (true, t)
    | '+' :: t => (false, t)
    | t => (false, t)
  let low := lowerAll body
  if low == "inf".data || low == "infinity".data then
    some (if neg then PyFloat.negInf else PyFloat.inf)
  else if low == "nan".data then some PyFloat.nan
  else
    (match splitOnChar 'e' low with
      | [mant] => parseMantissa mant
      | [mant, ex] => do
        let m ← parseMantissa mant
        let e ← parseSignedDigitPart ex
        some (m * (10 : ℚ) ^ e)
      | _ => none).map
      (fun q => PyFloat.finite (if neg then -q else q))

/-- Rational idealisation of a parsed float as it enters the REAL column.
A finite parse carries its exact decimal value.  The non-finite parses
inf, -inf and nan are stored by the program as IEEE non-finite REALs,
which have no rational counterpart: the store model maps them to a default
of 0, and no theorem below constrains a stored calories value except under
a `PyFloat.finite` hypothesis. -/
def PyFloat.storedVal : PyFloat → ℚ
  | .finite q => q
  | .inf => 0
  | .negInf => 0
  | .nan => 0

/-- Reply of the CALORIES conversation step: either the conversation ends
with the confirmation text, or the handler stays in the CALORIES state with
the corrective prompt (main.py returns `CALORIES` again). -/
inductive ConvReply
  | ended (reply : String)
  | retryCalories (reply : String)
deriving DecidableEq

/-- `calories_received` (main.py lines 94-122): `float(update.message.text)`
feeds `db.add_meal(..., meal_type="manual")` unchecked; a ValueError is
answered with a corrective prompt and the CALORIES state is retried.  Any
successful parse — finite or not — is stored; see `PyFloat.storedVal` for
how the stored REAL is rendered in the rational store model. -/
def calories_received (db : Database) (uid : Int) (food_name : String)
    (text : String) (today : ℕ) (now : Timestamp) : Database × ConvReply :=
  match pyFloat text with
  | none => (db, .retryCalories "Please enter a valid number for calories.")
  | some v =>
    let calories := v.storedVal
    let db := db.add_meal uid food_name calories "manual" none now
    let daily_total := db.get_daily_total uid today
    (db, .ended ("Logged " ++ food_name ++ " (" ++ toString calories ++
      " calories)\nDaily total: " ++ format1f daily_total ++ " calories"))

/-- One call to `add_meal` in a sequence of manual or photo loggings: the
arguments of `Database.add_meal` apart from the user. -/
structure AddCall where
  food_name : String
  calories : ℚ
  meal_type : String
  photo_url : Option String
  ts : Timestamp

/-- Replays a sequence of `add_meal` calls for one user. -/
def applyAddCalls (db : Database) (uid : Int) (calls : List AddCall) : Database :=
  calls.foldl
    (fun db c => db.add_meal uid c.food_name c.calories c.meal_type c.photo_url c.ts)
    db

/-- A store with no rows at all. -/
def emptyDb : Database := ⟨[], [], []⟩

/-- Concrete sequence of two add_meal calls on day 0 used as witness data. -/
def callsW1 : List AddCall :=
  [⟨"burger", 500, "manual", none, ⟨0, 100⟩⟩,
   ⟨"salad", 200, "manual", none, ⟨0, 200⟩⟩]

/-- A store holding two meals of user 1 on day 0 (out of order) and one
meal of user 2, used as witness data. -/
def dbW2 : Database :=
  ⟨[], [⟨1, "salad", 200, "manual", none, ⟨0, 200⟩⟩,
        ⟨2, "rice", 300, "manual", none, ⟨0, 150⟩⟩,
        ⟨1, "burger", 500, "manual", none, ⟨0, 100⟩⟩], []⟩

/-- A bot whose delivery always succeeds. -/
def sendOk : SendFn := fun _ _ => .ok ()

/-- A bot for which delivery to chat 1 raises (for example the user blocked
the bot) and every other delivery succeeds. -/
def sendBlockedFor1 : SendFn := fun uid _ =>
  if uid == 1 then .error (.sendError "Forbidden: bot was blocked by the user")
  else .ok ()

/-- User 1 with the default settings (target 2000, reminders on). -/
def userAlice : User := ⟨1, "alice", ⟨0, 0⟩, 1, 2000⟩

/-- User 2 with the default settings. -/
def userBob : User := ⟨2, "bob", ⟨0, 0⟩, 1, 2000⟩

/-- Store in which user 1 has meals totalling 2500 calories on day 0
against the default target of 2000, and no daily log rows. -/
def dbC3 : Database :=
  ⟨[userAlice],
   [⟨1, "burger", 1300, "manual", none, ⟨0, 36000⟩⟩,
    ⟨1, "pizza", 1200, "manual", none, ⟨0, 43200⟩⟩],
   []⟩

/-- Store holding users 1 and 2 and nothing else. -/
def dbC4 : Database := ⟨[userAlice, userBob], [], []⟩

/-- Store holding only user 1, with no meals. -/
def dbOneUser : Database := ⟨[userAlice], [], []⟩

/-- State reached by a loop run whether it finished or was aborted by a
raise: the database and the messages sent so far. -/
def loopState :
    Except (PyError × Database × List (Int × String))
      (Database × List (Int × String)) →
    Database × List (Int × String)
  | .ok s => s
  | .error (_, db, sent) => (db, sent)

/-- Whether a loop run was aborted by a raise. -/
def loopAborted :
    Except (PyError × Database × List (Int × String))
      (Database × List (Int × String)) → Bool
  | .ok _ => false
  | .error _ => true

/-!
Theorems.
-/

theorem day_eq_of_mealSelected {uid : Int} {d : ℕ} {m : Meal}
    (h : mealSelected uid d m) : m.created_at.day = d := by
  obtain ⟨-, h1, h2⟩ := h
  simp only [tsLe, startDate, endDate] at h1 h2
  rcases h1 with h1 | ⟨h1, -⟩ <;> rcases h2 with h2 | ⟨h2, -⟩ <;> omega

theorem get_daily_total_eq_filter (db : Database) (uid : Int) (d : ℕ) :
    db.get_daily_total uid d
      = ((db.meals.filter (fun m => decide (mealSelected uid d m))).map
          Meal.calories).sum := by
  unfold Database.get_daily_total Database.get_daily_meals
  exact ((List.perm_insertionSort mealLe _).map Meal.calories).sum_eq

theorem filter_map_sum_add_meal (db : Database) (uid : Int) (d : ℕ)
    (f : String) (cal : ℚ) (mt : String) (pu : Option String) (ts : Timestamp)
    (h : tsLe (startDate d) ts ∧ tsLe ts (endDate d)) :
    (((db.add_meal uid f cal mt pu ts).meals.filter
        (fun m => decide (mealSelected uid d m))).map Meal.calories).sum
      = ((db.meals.filter (fun m => decide (mealSelected uid d m))).map
          Meal.calories).sum + cal := by
  have hsel : mealSelected uid d ⟨uid, f, cal, mt, pu, ts⟩ := ⟨rfl, h.1, h.2⟩
  unfold Database.add_meal
  simp [List.filter_append, hsel]

theorem applyAddCalls_total (uid : Int) (d : ℕ) :
    ∀ (calls : List AddCall) (db : Database),
      (∀ c ∈ calls, tsLe (startDate d) c.ts ∧ tsLe c.ts (endDate d)) →
      (applyAddCalls db uid calls).get_daily_total uid d
        = db.get_daily_total uid d + (calls.map AddCall.calories).sum
  | [], db, _ => by simp [applyAddCalls]
  | c :: cs, db, h => by
    have hc := h c (List.mem_cons_self c cs)
    have ih := applyAddCalls_total uid d cs
      (db.add_meal uid c.food_name c.calories c.meal_type c.photo_url c.ts)
      (fun x hx => h x (List.mem_cons_of_mem c hx))
    have step := filter_map_sum_add_meal db uid d c.food_name c.calories
      c.meal_type c.photo_url c.ts hc
    have hfold : applyAddCalls db uid (c :: cs)
        = applyAddCalls
            (db.add_meal uid c.food_name c.calories c.meal_type c.photo_url c.ts)
            uid cs := rfl
    rw [hfold, ih, get_daily_total_eq_filter
      (db.add_meal uid c.food_name c.calories c.meal_type c.photo_url c.ts),
      step, ← get_daily_total_eq_filter]
    simp [List.map_cons, List.sum_cons]
    ring

/-- C1: for every user and day, `daily_total` equals the sum of the
`calories` of the meals returned by `daily_meals`; it is 0 when the user
has no meals that day; and after any sequence of `add_meal` calls for one
user within one day (starting from a store with no meals of that user on
that day) it equals the sum of the calorie values of those calls. -/
theorem daily_total_spec :
    (∀ (db : Database) (uid : Int) (d : ℕ),
      db.get_daily_total uid d
        = ((db.get_daily_meals uid d).map Meal.calories).sum)
    ∧ (∀ (db : Database) (uid : Int) (d : ℕ),
      db.get_daily_meals uid d = [] → db.get_daily_total uid d = 0)
    ∧ (∀ (db : Database) (uid : Int) (d : ℕ) (calls : List AddCall),
      db.get_daily_meals uid d = [] →
      (∀ c ∈ calls, tsLe (startDate d) c.ts ∧ tsLe c.ts (endDate d)) →
      (applyAddCalls db uid calls).get_daily_total uid d
        = (calls.map AddCall.calories).sum) := by
  refine ⟨fun db uid d => rfl, fun db uid d h => ?_, fun db uid d calls h0 hw => ?_⟩
  · unfold Database.get_daily_total
    rw [h]
    rfl
  · have hz : db.get_daily_total uid d = 0 := by
      unfold Database.get_daily_total
      rw [h0]
      rfl
    rw [applyAddCalls_total uid d calls db hw, hz, zero_add]

/-- Witness for C1 at concrete inputs: two add_meal calls of 500 and 200
calories on day 0 starting from the empty store. -/
theorem daily_total_spec_witness :
    (applyAddCalls emptyDb 1 callsW1).get_daily_total 1 0
      = (callsW1.map AddCall.calories).sum :=
  daily_total_spec.2.2 emptyDb 1 0 callsW1 rfl (by decide)

/-- C2: for every user and day, `daily_meals` returns exactly that user's
meals whose creation timestamp lies in the inclusive window
[day T00:00:00, day T23:59:59] (as a permutation-exact selection and as a
membership characterisation), never a meal from a different calendar day,
in non-decreasing timestamp order. -/
theorem daily_meals_spec (db : Database) (uid : Int) (d : ℕ) :
    (db.get_daily_meals uid d).Perm
        (db.meals.filter (fun m => decide (mealSelected uid d m)))
    ∧ (db.get_daily_meals uid d).Sorted mealLe
    ∧ (∀ m ∈ db.get_daily_meals uid d, m.created_at.day = d)
    ∧ (∀ m : Meal, m ∈ db.get_daily_meals uid d
        ↔ m ∈ db.meals ∧ mealSelected uid d m) := by
  have hperm : (db.get_daily_meals uid d).Perm
      (db.meals.filter (fun m => decide (mealSelected uid d m))) :=
    List.perm_insertionSort mealLe _
  have hmem : ∀ m : Meal, m ∈ db.get_daily_meals uid d
      ↔ m ∈ db.meals ∧ mealSelected uid d m := by
    intro m
    rw [hperm.mem_iff, List.mem_filter]
    simp
  refine ⟨hperm, List.sorted_insertionSort mealLe _, fun m hm => ?_, hmem⟩
  exact day_eq_of_mealSelected ((hmem m).mp hm).2

/-- Witness for C2 at a concrete store: the meal of user 1 logged at
second 200 of day 0 is returned and indeed carries day 0. -/
theorem daily_meals_spec_witness :
    (⟨1, "salad", 200, "manual", none, ⟨0, 200⟩⟩ : Meal).created_at.day = 0 :=
  (daily_meals_spec dbW2 1 0).2.2.1 ⟨1, "salad", 200, "manual", none, ⟨0, 200⟩⟩
    (by decide)

/-- C6: `create_user` is idempotent; a second call with the same id — even
with a different name or clock — leaves the store exactly as it was after
the first call. -/
theorem create_user_idempotent (db : Database) (uid : Int)
    (n1 n2 : String) (t1 t2 : Timestamp) :
    (db.create_user uid n1 t1).create_user uid n2 t2
      = db.create_user uid n1 t1 := by
  unfold Database.create_user
  by_cases h : db.users.any (fun u => u.user_id == uid)
  · simp [h]
  · simp [h, List.any_append]

/-- C10: every invocation of `send_daily_summary` and of `send_reminder`
fails at its user-listing step, because `Database` defines no `supabase`
attribute; the enclosing handler swallows the AttributeError, so no
scheduled-job run persists a DailyLog row, sends any message, or changes
the store. -/
theorem scheduled_jobs_never_act (send : SendFn) (today : ℕ) (now : Timestamp)
    (db : Database) :
    send_daily_summary send today now db
      = ⟨db, [],
         ["Error sending daily summary: Database object has no attribute supabase"]⟩
    ∧ send_reminder send today db
      = ⟨db, [],
         ["Error sending reminder: Database object has no attribute supabase"]⟩ :=
  ⟨rfl, rfl⟩

/-- C3, against the code: in a store where user 1 has meals totalling 2500
against the default target 2000, a Daily Summary Job run writes no DailyLog
row at all (and sends nothing), because the job dies at `db.supabase`
before processing any user — the claimed `target_met = false` row is never
persisted. -/
theorem summary_job_persists_nothing :
    dbC3.get_daily_total 1 0 = 2500
    ∧ dbC3.users.map User.daily_target = [2000]
    ∧ (∀ (send : SendFn) (now : Timestamp),
        (send_daily_summary send 0 now dbC3).db.daily_logs = []
        ∧ (send_daily_summary send 0 now dbC3).sent = []) := by
  have hm : dbC3.get_daily_meals 1 0
      = [⟨1, "burger", 1300, "manual", none, ⟨0, 36000⟩⟩,
         ⟨1, "pizza", 1200, "manual", none, ⟨0, 43200⟩⟩] := by decide
  refine ⟨?_, by decide, fun _ _ => ⟨rfl, rfl⟩⟩
  unfold Database.get_daily_total
  rw [hm]
  norm_num

/-- C4, against the code: the single `try` of `send_daily_summary` wraps
the whole user loop, so when delivery to user 1 raises, user 2 is never
processed — no DailyLog row for user 2, no message to anyone — although
the run did log user 1 before aborting. -/
theorem summary_loop_aborts_batch :
    (loopState (summaryLoop sendBlockedFor1 0 ⟨0, 0⟩ [userAlice, userBob]
        dbC4)).1.daily_logs.map DailyLog.user_id = [1]
    ∧ (loopState (summaryLoop sendBlockedFor1 0 ⟨0, 0⟩ [userAlice, userBob]
        dbC4)).2 = []
    ∧ loopAborted (summaryLoop sendBlockedFor1 0 ⟨0, 0⟩ [userAlice, userBob]
        dbC4) = true := by
  refine ⟨by decide, by decide, by decide⟩

/-- C5, against the code: `update_settings` splices any existing column
name into the UPDATE, so a patch on the non-allowed column `username` is
silently applied to the row instead of being rejected. -/
theorem update_settings_applies_arbitrary_column :
    dbOneUser.update_settings 1 [("username", SqlValue.text "hacked")]
      = .ok ⟨[⟨1, "hacked", ⟨0, 0⟩, 1, 2000⟩], [], []⟩ := rfl

/-- C7, against the code: user 1 has reminders enabled and no meals today,
yet a Reminder Job run sends nothing — it dies at `db.supabase` before
reaching any user. -/
theorem reminder_job_sends_nothing :
    dbOneUser.users.map User.reminder_enabled = [1]
    ∧ dbOneUser.get_daily_meals 1 0 = []
    ∧ ∀ send : SendFn,
        send_reminder send 0 dbOneUser
          = ⟨dbOneUser, [],
             ["Error sending reminder: Database object has no attribute supabase"]⟩ :=
  ⟨by decide, rfl, fun _ => rfl⟩

theorem lookup_lruPut_self (l : List (String × LookupResult)) (q : String)
    (r : LookupResult) : (lruPut l q r).lookup q = some r := by
  unfold lruPut
  rw [show (100 : ℕ) = 99 + 1 from rfl, List.take_succ_cons]
  simp [List.lookup]

theorem cacheFresh_cons_fresh (c : List (String × ℚ × String × ℚ))
    (key : String) (ts now : ℚ) (data : String × ℚ) (h : now - ts < 3600) :
    cacheFresh ((key, ts, data) :: c) now key = some data := by
  unfold cacheFresh
  simp [List.lookup, h]

theorem cacheFresh_cons_stale (c : List (String × ℚ × String × ℚ))
    (key : String) (ts now : ℚ) (data : String × ℚ) (h : ¬ now - ts < 3600) :
    cacheFresh ((key, ts, data) :: c) now key = none := by
  unfold cacheFresh
  simp [List.lookup, h]

theorem get_food_calories_lru_hit (fr : FoodRecognition) (api : ApiResponse)
    (now : ℚ) (q : String) (r : LookupResult)
    (h : fr.lru.lookup q = some r) :
    get_food_calories fr api now q
      = (r, { fr with lru := lruTouch fr.lru q }, false) := by
  unfold get_food_calories
  rw [h]

theorem get_food_calories_request_success (fr : FoodRecognition) (now : ℚ)
    (q : String) (item : ApiItem) (rest : List ApiItem)
    (hlru : fr.lru.lookup q = none)
    (hcache : cacheFresh fr.cache now (strLower q) = none) :
    get_food_calories fr (.success (item :: rest)) now q
      = (.ok (item.name, item.calories),
         ⟨(strLower q, now, item.name, item.calories) :: fr.cache,
          lruPut fr.lru q (.ok (item.name, item.calories))⟩,
         true) := by
  unfold get_food_calories
  rw [hlru]
  simp only [hcache]

theorem get_food_calories_cache_hit (fr : FoodRecognition) (api : ApiResponse)
    (now : ℚ) (q : String) (data : String × ℚ)
    (hlru : fr.lru.lookup q = none)
    (hcache : cacheFresh fr.cache now (strLower q) = some data) :
    get_food_calories fr api now q
      = (.ok data, { fr with lru := lruPut fr.lru q (.ok data) }, false) := by
  unfold get_food_calories
  rw [hlru]
  simp only [hcache]

theorem get_food_calories_requests (fr : FoodRecognition) (api : ApiResponse)
    (now : ℚ) (q : String)
    (hlru : fr.lru.lookup q = none)
    (hcache : cacheFresh fr.cache now (strLower q) = none) :
    (get_food_calories fr api now q).2.2 = true := by
  unfold get_food_calories
  rw [hlru]
  simp only [hcache]
  cases api with
  | success items => cases items <;> rfl
  | httpError status => rfl
  | timeout => rfl

/-- C8 counterexample, refuting the claim as stated on two concrete runs.
First run: "apple" is looked up at time 0 (successful response, 52 kcal)
and again at time 7200 — two hours later, outside the 1-hour window — yet
the second call issues no outbound request and returns the stale result,
because `@lru_cache` memoises the exact query string without expiry.
Second run: "Apple" is looked up at time 0 and times out (the failure is
not cached), then "apple" — equal up to lowercasing — is looked up at time
10, inside the window, and a second outbound request is issued. -/
theorem lookup_cache_counterexample :
    (¬ ((7200 : ℚ) - 0 < 3600)
      ∧ (get_food_calories
          ((get_food_calories FoodRecognition.init
              (.success [⟨"apple", 52⟩]) 0 "apple").2.1)
          (.success [⟨"apple", 95⟩]) 7200 "apple").2.2 = false
      ∧ (get_food_calories
          ((get_food_calories FoodRecognition.init
              (.success [⟨"apple", 52⟩]) 0 "apple").2.1)
          (.success [⟨"apple", 95⟩]) 7200 "apple").1 = .ok ("apple", 52))
    ∧ (strLower "Apple" = strLower "apple"
      ∧ ((10 : ℚ) - 0 < 3600)
      ∧ (get_food_calories FoodRecognition.init .timeout 0 "Apple").2.2 = true
      ∧ (get_food_calories
          ((get_food_calories FoodRecognition.init .timeout 0 "Apple").2.1)
          .timeout 10 "apple").2.2 = true) := by
  refine ⟨⟨by norm_num, by rfl, by rfl⟩, by rfl, by norm_num, by rfl, by rfl⟩

/-- C8 amended: lookup results are cached under the lowercased query for a
1-hour window and additionally memoised by the exact query string with no
expiry.  Two calls with queries equal up to lowercasing within the window,
the first of which misses both caches and receives a successful response,
issue exactly one outbound request between them and return identical
results; an exactly-repeated query string is answered from the memo table
with no request regardless of age; and a repeat that is not string-identical
to any memoised query re-queries the service once the window has passed. -/
theorem lookup_cache_spec :
    (∀ (fr : FoodRecognition) (q1 q2 : String) (t1 t2 : ℚ)
        (api2 : ApiResponse) (item : ApiItem) (rest : List ApiItem),
      strLower q2 = strLower q1 →
      fr.lru.lookup q1 = none →
      cacheFresh fr.cache t1 (strLower q1) = none →
      t2 - t1 < 3600 →
      (q2 = q1 ∨
        (lruPut fr.lru q1 (.ok (item.name, item.calories))).lookup q2 = none) →
      (get_food_calories fr (.success (item :: rest)) t1 q1).1
          = .ok (item.name, item.calories)
      ∧ (get_food_calories fr (.success (item :: rest)) t1 q1).2.2 = true
      ∧ (get_food_calories
            ((get_food_calories fr (.success (item :: rest)) t1 q1).2.1)
            api2 t2 q2).1
          = .ok (item.name, item.calories)
      ∧ (get_food_calories
            ((get_food_calories fr (.success (item :: rest)) t1 q1).2.1)
            api2 t2 q2).2.2
          = false)
    ∧ (∀ (fr : FoodRecognition) (api : ApiResponse) (now : ℚ) (q : String)
        (r : LookupResult),
      fr.lru.lookup q = some r →
      (get_food_calories fr api now q).1 = r
      ∧ (get_food_calories fr api now q).2.2 = false)
    ∧ (∀ (fr : FoodRecognition) (q1 q2 : String) (t1 t2 : ℚ)
        (api2 : ApiResponse) (item : ApiItem) (rest : List ApiItem),
      strLower q2 = strLower q1 →
      fr.lru.lookup q1 = none →
      cacheFresh fr.cache t1 (strLower q1) = none →
      ¬ t2 - t1 < 3600 →
      (lruPut fr.lru q1 (.ok (item.name, item.calories))).lookup q2 = none →
      (get_food_calories
          ((get_food_calories fr (.success (item :: rest)) t1 q1).2.1)
          api2 t2 q2).2.2
        = true) := by
  refine ⟨?_, ?_, ?_⟩
  · intro fr q1 q2 t1 t2 api2 item rest hlow hlru hcache hwin hq2
    have h1 := get_food_calories_request_success fr t1 q1 item rest hlru hcache
    rw [h1]
    refine ⟨rfl, rfl, ?_⟩
    rcases hq2 with rfl | hq2
    · have h2 := get_food_calories_lru_hit
        ⟨(strLower q2, t1, item.name, item.calories) :: fr.cache,
         lruPut fr.lru q2 (.ok (item.name, item.calories))⟩
        api2 t2 q2 (.ok (item.name, item.calories))
        (lookup_lruPut_self fr.lru q2 (.ok (item.name, item.calories)))
      rw [h2]
      exact ⟨rfl, rfl⟩
    · have hfresh : cacheFresh
          ((strLower q1, t1, item.name, item.calories) :: fr.cache) t2 (strLower q2)
          = some (item.name, item.calories) := by
        rw [hlow]
        exact cacheFresh_cons_fresh fr.cache (strLower q1) t1 t2 _ hwin
      have h2 := get_food_calories_cache_hit
        ⟨(strLower q1, t1, item.name, item.calories) :: fr.cache,
         lruPut fr.lru q1 (.ok (item.name, item.calories))⟩
        api2 t2 q2 (item.name, item.calories) hq2 hfresh
      rw [h2]
      exact ⟨rfl, rfl⟩
  · intro fr api now q r h
    rw [get_food_calories_lru_hit fr api now q r h]
    exact ⟨rfl, rfl⟩
  · intro fr q1 q2 t1 t2 api2 item rest hlow hlru hcache hwin hq2
    have h1 := get_food_calories_request_success fr t1 q1 item rest hlru hcache
    rw [h1]
    have hstale : cacheFresh
        ((strLower q1, t1, item.name, item.calories) :: fr.cache) t2 (strLower q2)
        = none := by
      rw [hlow]
      exact cacheFresh_cons_stale fr.cache (strLower q1) t1 t2 _ hwin
    exact get_food_calories_requests _ api2 t2 q2 hq2 hstale

/-- Witness for C8 amended at concrete inputs: "Apple" then "apple"
10 seconds apart, the first succeeding with 52 kcal, the second answered
from the lowercase-keyed cache with no outbound request. -/
theorem lookup_cache_spec_witness :
    (get_food_calories
        ((get_food_calories FoodRecognition.init
            (.success [⟨"apple", 52⟩]) 0 "Apple").2.1)
        .timeout 10 "apple").2.2 = false :=
  (lookup_cache_spec.1 FoodRecognition.init "Apple" "apple" 0 10 .timeout
    ⟨"apple", 52⟩ [] (by rfl) (by rfl) (by rfl) (by norm_num)
    (Or.inr (by rfl))).2.2.2

theorem pyFloat_neg100 : pyFloat "-100" = some (.finite (-100 : ℚ)) := by
  decide

/-- C9 counterexample: in the manual-logging flow, entering "-100" at the
calorie prompt parses as a float and is stored unchecked, so a Meal row
with negative calories is created. -/
theorem negative_calories_stored :
    ((calories_received emptyDb 1 "mystery" "-100" 0 ⟨0, 0⟩).1).meals
        = [⟨1, "mystery", -100, "manual", none, ⟨0, 0⟩⟩]
    ∧ ((-100 : ℚ) < 0) := by
  constructor
  · unfold calories_received
    rw [pyFloat_neg100]
    rfl
  · norm_num

/-- C9 amended: the manual-logging flow rejects only a calorie entry on
which Python `float()` raises ValueError, answering with the corrective
prompt and staying in the CALORIES state; every entry that parses —
exponent, whitespace-padded, underscore-separated and the non-finite
inf/infinity/nan spellings included — appends exactly one Meal row instead
of being re-prompted, and a finite parse, negative values included, is
stored unchanged, so stored meals are not guaranteed non-negative. -/
theorem manual_flow_parse_spec :
    (∀ (db : Database) (uid : Int) (food text : String) (today : ℕ)
        (now : Timestamp),
      pyFloat text = none →
      calories_received db uid food text today now
        = (db, .retryCalories "Please enter a valid number for calories."))
    ∧ (∀ (db : Database) (uid : Int) (food text : String) (today : ℕ)
        (now : Timestamp),
      pyFloat text ≠ none →
      ∃ q : ℚ, ((calories_received db uid food text today now).1).meals
        = db.meals ++ [⟨uid, food, q, "manual", none, now⟩])
    ∧ (∀ (db : Database) (uid : Int) (food text : String) (today : ℕ)
        (now : Timestamp) (c : ℚ),
      pyFloat text = some (.finite c) →
      ((calories_received db uid food text today now).1).meals
        = db.meals ++ [⟨uid, food, c, "manual", none, now⟩]) := by
  refine ⟨?_, ?_, ?_⟩
  · intro db uid food text today now h
    unfold calories_received
    rw [h]
  · intro db uid food text today now h
    unfold calories_received
    cases hv : pyFloat text with
    | none => exact absurd hv h
    | some v => exact ⟨v.storedVal, rfl⟩
  · intro db uid food text today now c h
    unfold calories_received
    rw [h]
    rfl

/-- Witness for C9 amended at concrete inputs: "abc" is rejected with the
corrective prompt; "-100", " 200 " and "1_000" are parsed and stored with
their values; "1e5" and "inf" also parse and store a row rather than
re-prompting. -/
theorem manual_flow_parse_spec_witness :
    calories_received emptyDb 1 "tea" "abc" 0 ⟨0, 0⟩
      = (emptyDb, .retryCalories "Please enter a valid number for calories.")
    ∧ ((calories_received emptyDb 1 "mystery" "-100" 0 ⟨0, 0⟩).1).meals
      = emptyDb.meals ++ [⟨1, "mystery", -100, "manual", none, ⟨0, 0⟩⟩]
    ∧ ((calories_received emptyDb 1 "rice" " 200 " 0 ⟨0, 0⟩).1).meals
      = emptyDb.meals ++ [⟨1, "rice", 200, "manual", none, ⟨0, 0⟩⟩]
    ∧ ((calories_received emptyDb 1 "oats" "1_000" 0 ⟨0, 0⟩).1).meals
      = emptyDb.meals ++ [⟨1, "oats", 1000, "manual", none, ⟨0, 0⟩⟩]
    ∧ (∃ q : ℚ, ((calories_received emptyDb 1 "cake" "1e5" 0 ⟨0, 0⟩).1).meals
      = emptyDb.meals ++ [⟨1, "cake", q, "manual", none, ⟨0, 0⟩⟩])
    ∧ (∃ q : ℚ, ((calories_received emptyDb 1 "soup" "inf" 0 ⟨0, 0⟩).1).meals
      = emptyDb.meals ++ [⟨1, "soup", q, "manual", none, ⟨0, 0⟩⟩]) :=
  ⟨manual_flow_parse_spec.1 emptyDb 1 "tea" "abc" 0 ⟨0, 0⟩ (by decide),
   manual_flow_parse_spec.2.2 emptyDb 1 "mystery" "-100" 0 ⟨0, 0⟩ (-100)
     (by decide),
   manual_flow_parse_spec.2.2 emptyDb 1 "rice" " 200 " 0 ⟨0, 0⟩ 200
     (by decide),
   manual_flow_parse_spec.2.2 emptyDb 1 "oats" "1_000" 0 ⟨0, 0⟩ 1000
     (by decide),
   manual_flow_parse_spec.2.1 emptyDb 1 "cake" "1e5" 0 ⟨0, 0⟩ (by decide),
   manual_flow_parse_spec.2.1 emptyDb 1 "soup" "inf" 0 ⟨0, 0⟩ (by decide)⟩

end CalorieBot
